import Mathlib

/-!
Verification development for the dev-browser workspace/process lifecycle
manager and named-page registry.

The definitions below are a shallow embedding of the TypeScript sources:
  packages/dev-browser/src/client.ts   (display placement resolver,
    Chrome process launcher, CDP readiness poll, termination,
    WorkspaceManager, the client-side named-page registry)
  skills/dev-browser/src/workspace-server.ts (HTTP handlers: workspace
    switch/stop, page get-or-create, page delete, server shutdown)

External effects (child-process spawning, `displayplacer` /
`betterdisplaycli` invocations, CDP fetches, Playwright round-trips) are
represented by explicit environment records and action traces; all data
manipulation (caches, maps, argument vectors, control flow) is translated
directly from the source.
-/

namespace DevBrowser

/-! ## Small assoc-list maps with JavaScript `Map` semantics
`mapSet` updates in place or appends, `mapDelete` removes, lookup finds the
first binding; keys stay unique when only these operations are used. -/

def mapLookup {α : Type} (m : List (String × α)) (k : String) : Option α :=
  match m with
  | [] => none
  | (k0, v) :: rest => if k0 = k then some v else mapLookup rest k

def mapSet {α : Type} (m : List (String × α)) (k : String) (v : α) : List (String × α) :=
  match m with
  | [] => [(k, v)]
  | (k0, v0) :: rest => if k0 = k then (k0, v) :: rest else (k0, v0) :: mapSet rest k v

def mapDelete {α : Type} (m : List (String × α)) (k : String) : List (String × α) :=
  match m with
  | [] => []
  | (k0, v0) :: rest => if k0 = k then rest else (k0, v0) :: mapDelete rest k

/-! ## Data model (client.ts) -/

/-- `DisplayInfo` from client.ts: origin and resolution of the virtual
display selected by the placement resolver. -/
structure DisplayInfo where
  originX : Int
  originY : Int
  width : Nat
  height : Nat
deriving DecidableEq, Repr

/-- One parsed record of `displayplacer list` output (type / origin /
resolution triple as collected by `getVirtualDisplayPosition`). -/
structure Screen where
  stype : String
  originX : Int
  originY : Int
  width : Nat
  height : Nat
deriving DecidableEq, Repr

/-- Environment of a launch: the platform string, the directories that feed
path construction, the successive outcomes of the `displayplacer list`
invocations (`Except.error` = the OS utility failed), and the outcome of the
`betterdisplaycli create` invocation. -/
structure LaunchEnv where
  platform : String
  home : String
  localAppData : String
  detectResults : List (Except Unit (List Screen))
  createResult : Except Unit Unit

/-- Selection loop of `getVirtualDisplayPosition`: skip the built-in screen,
accept the first remaining screen whose horizontal origin is strictly
positive. -/
def selectVirtualDisplay (screens : List Screen) : Option DisplayInfo :=
  match screens with
  | [] => none
  | s :: rest =>
    if s.stype = "MacBook built in screen" then selectVirtualDisplay rest
    else if s.originX > 0 then
      some { originX := s.originX, originY := s.originY, width := s.width, height := s.height }
    else selectVirtualDisplay rest

/-- `getVirtualDisplayPosition`: returns null off macOS; on macOS runs the
`callIdx`-th `displayplacer list` invocation, swallows any utility failure
as null, and otherwise applies the selection heuristic. -/
def getVirtualDisplayPosition (env : LaunchEnv) (callIdx : Nat) : Option DisplayInfo :=
  if env.platform = "darwin" then
    match env.detectResults.get? callIdx with
    | some (Except.ok screens) => selectVirtualDisplay screens
    | _ => none
  else none

/-- Trace of OS-utility interactions performed by `ensureVirtualDisplay`. -/
inductive DisplayAction
  | detect
  | create
  | wait (ms : Nat)
deriving DecidableEq, Repr

/-- `ensureVirtualDisplay`: detect; if nothing found, create the
BetterDisplay virtual screen, wait 1000 ms, and retry detection exactly
once; every utility failure is swallowed as null. Returns the resolved
placement together with the utility-call trace. -/
def ensureVirtualDisplay (env : LaunchEnv) : Option DisplayInfo × List DisplayAction :=
  if env.platform = "darwin" then
    match getVirtualDisplayPosition env 0 with
    | some d => (some d, [DisplayAction.detect])
    | none =>
      match env.createResult with
      | Except.error _ => (none, [DisplayAction.detect, DisplayAction.create])
      | Except.ok _ =>
        (getVirtualDisplayPosition env 1,
         [DisplayAction.detect, DisplayAction.create, DisplayAction.wait 1000,
          DisplayAction.detect])
  else (none, [])

/-- Module-level cache `cachedVirtualDisplay`: the outer `none` is the
JavaScript `undefined` (not yet queried), `some v` is a cached result
(including a cached failure `some none`). -/
structure LaunchState where
  cachedVirtualDisplay : Option (Option DisplayInfo)
deriving DecidableEq, Repr

/-- `CHROME_PATHS` keyed by platform. -/
def chromePaths (env : LaunchEnv) : List String :=
  if env.platform = "darwin" then
    ["/Applications/Google Chrome.app/Contents/MacOS/Google Chrome",
     "/Applications/Google Chrome Canary.app/Contents/MacOS/Google Chrome Canary"]
  else if env.platform = "win32" then
    ["C:\\Program Files\\Google\\Chrome\\Application\\chrome.exe",
     "C:\\Program Files (x86)\\Google\\Chrome\\Application\\chrome.exe",
     env.localAppData ++ "\\Google\\Chrome\\Application\\chrome.exe"]
  else if env.platform = "linux" then
    ["/usr/bin/google-chrome", "/usr/bin/google-chrome-stable",
     "/usr/bin/chromium", "/usr/bin/chromium-browser"]
  else []

/-- `findChromeExecutable`: first configured path for the platform, null when
the platform has none. -/
def findChromeExecutable (env : LaunchEnv) : Option String :=
  (chromePaths env).head?

/-! ## Chrome argument construction (`buildChromeArgs`) -/

/-- One process argument of the Chrome command line, as structured data. -/
inductive ChromeArg
  | userDataDir (dir : String)
  | remoteDebuggingPort (port : Nat)
  | windowSize (w h : Nat)
  | noFirstRun
  | noDefaultBrowserCheck
  | disableBackgroundTimerThrottling
  | disableBackgroundingOccludedWindows
  | disableRendererBackgrounding
  | windowPosition (x y : Int)
  | headlessNew
  | url (u : String)
deriving DecidableEq, Repr

/-- Exact command-line string of each argument, as written in the source. -/
def ChromeArg.render : ChromeArg → String
  | userDataDir dir => "--user-data-dir=" ++ dir
  | remoteDebuggingPort port => "--remote-debugging-port=" ++ toString port
  | windowSize w h => "--window-size=" ++ toString w ++ "," ++ toString h
  | noFirstRun => "--no-first-run"
  | noDefaultBrowserCheck => "--no-default-browser-check"
  | disableBackgroundTimerThrottling => "--disable-background-timer-throttling"
  | disableBackgroundingOccludedWindows => "--disable-backgrounding-occluded-windows"
  | disableRendererBackgrounding => "--disable-renderer-backgrounding"
  | windowPosition x y => "--window-position=" ++ toString x ++ "," ++ toString y
  | headlessNew => "--headless=new"
  | url u => u

/-- `WORKSPACE_DATA_DIR`: `join(homedir(), ".dev-browser", "workspaces")`. -/
def workspaceDataDir (env : LaunchEnv) : String :=
  env.home ++ "/.dev-browser/workspaces"

/-- `buildChromeArgs`: fixed flags, the per-workspace user-data directory,
optional window position (only when supplied), optional new-headless flag,
and the `about:blank` start target last. -/
def buildChromeArgs (userDataDir : String) (port : Nat) (headless : Bool)
    (windowSize : Nat × Nat) (windowPosition : Option (Int × Int)) : List ChromeArg :=
  [ChromeArg.userDataDir userDataDir,
   ChromeArg.remoteDebuggingPort port,
   ChromeArg.windowSize windowSize.1 windowSize.2,
   ChromeArg.noFirstRun,
   ChromeArg.noDefaultBrowserCheck,
   ChromeArg.disableBackgroundTimerThrottling,
   ChromeArg.disableBackgroundingOccludedWindows,
   ChromeArg.disableRendererBackgrounding]
  ++ (match windowPosition with
      | some xy => [ChromeArg.windowPosition xy.1 xy.2]
      | none => [])
  ++ (if headless then [ChromeArg.headlessNew] else [])
  ++ [ChromeArg.url ("about:blank")]

/-! ## CDP readiness polling (`waitForCDP`) -/

/-- Error text thrown after exhausting the retry budget; JavaScript renders a
null `lastError` as the string undefined. -/
def cdpFailureMessage (maxRetries : Nat) (lastError : Option String) : String :=
  "Chrome CDP not available after " ++ toString maxRetries ++ " retries: " ++
    (match lastError with
     | some m => m
     | none => "undefined")

/-- Polling loop of `waitForCDP`. `attempts i` is the outcome of the `i`-th
`GET /json/version` round-trip (`Except.ok` carries the extracted
`webSocketDebuggerUrl`, `Except.error` the thrown message). Returns the
result, the number of fetch attempts made, and the total milliseconds slept. -/
def waitForCDPGo (attempts : Nat → Except String String) (maxRetries delayMs : Nat)
    (idx fuel : Nat) (lastError : Option String) (tried sleptMs : Nat) :
    Except String String × Nat × Nat :=
  match fuel with
  | 0 => (Except.error (cdpFailureMessage maxRetries lastError), tried, sleptMs)
  | f + 1 =>
    match attempts idx with
    | Except.ok u => (Except.ok u, tried + 1, sleptMs)
    | Except.error msg =>
      waitForCDPGo attempts maxRetries delayMs (idx + 1) f (some msg) (tried + 1)
        (sleptMs + delayMs)

/-- `waitForCDP` with the source defaults `maxRetries = 30`, `delayMs = 500`. -/
def waitForCDP (attempts : Nat → Except String String) (maxRetries : Nat := 30)
    (delayMs : Nat := 500) : Except String String × Nat × Nat :=
  waitForCDPGo attempts maxRetries delayMs 0 maxRetries none 0 0

/-! ## Process handles and termination (`killChrome`) -/

inductive Signal
  | sigterm
  | sigkill
deriving DecidableEq, Repr

/-- A Node `ChildProcess` handle: `killed` is Node's flag, set once `kill()`
has successfully sent a signal (it does not mean the process exited);
`alive` says whether the OS process can currently be signalled. -/
structure ChildProcess where
  pid : Nat
  killed : Bool
  alive : Bool
deriving DecidableEq, Repr

/-- Node `ChildProcess.kill`: sends the signal when the process is
signallable and then records `killed := true`; otherwise does nothing. -/
def ChildProcess.kill (p : ChildProcess) (sig : Signal) : ChildProcess × List Signal :=
  if p.alive then ({ p with killed := true }, [sig]) else (p, [])

/-- `ChromeInstance` from client.ts. -/
structure ChromeInstance where
  process : ChildProcess
  port : Nat
  profileDirectory : String
  wsEndpoint : Option String
deriving DecidableEq, Repr

/-- `killChrome`: when the `killed` flag is still clear, send SIGTERM, then a
3000 ms timer re-checks the same `killed` flag and sends SIGKILL when it is
still clear. `exitsDuringGrace` says whether the OS process terminates on
its own before the timer fires. The result pairs the updated instance with
the timestamped signals actually delivered; the call itself returns
immediately (the timer is scheduled, not awaited). -/
def killChrome (inst : ChromeInstance) (exitsDuringGrace : Bool) :
    ChromeInstance × List (Nat × Signal) :=
  if inst.process.killed then (inst, [])
  else
    let r1 := inst.process.kill Signal.sigterm
    let p2 := if exitsDuringGrace then { r1.1 with alive := false } else r1.1
    if p2.killed then
      ({ inst with process := p2 }, r1.2.map (fun s => (0, s)))
    else
      let r3 := p2.kill Signal.sigkill
      ({ inst with process := r3.1 },
       r1.2.map (fun s => (0, s)) ++ r3.2.map (fun s => (3000, s)))

/-! ## Launch pipeline (`launchChrome`) -/

/-- `ChromeLaunchOptions` (windowSize defaults to `DEFAULT_WINDOW_SIZE`). -/
structure ChromeLaunchOptions where
  workspaceName : String
  profileDirectory : String
  port : Nat
  headless : Bool
  windowSize : Nat × Nat := (1920, 1080)
deriving DecidableEq, Repr

/-- Outcome of one `launchChrome` call: the thrown-or-returned result, the
updated module-level cache, how many times the display resolver was invoked
during this call, the placement actually used, the effective headless flag,
and the argument vector of the spawned process (`none` when the call threw
before spawning). -/
structure LaunchResult where
  result : Except String ChromeInstance
  lst : LaunchState
  displayQueries : Nat
  placementUsed : Option DisplayInfo
  headlessUsed : Bool
  spawnedArgs : Option (List ChromeArg)
deriving Repr

/-- `launchChrome`: find the executable (throwing when the platform has
none), resolve the display placement through the module cache, compute the
effective headless mode, build the argument vector, spawn, and poll the CDP
endpoint; a polling failure propagates after the spawn already happened. -/
def launchChromeM (env : LaunchEnv) (lst : LaunchState) (opts : ChromeLaunchOptions)
    (attempts : Nat → Except String String) (newPid : Nat) : LaunchResult :=
  match findChromeExecutable env with
  | none =>
    { result := Except.error ("Chrome executable not found for platform: " ++ env.platform),
      lst := lst, displayQueries := 0, placementUsed := none, headlessUsed := false,
      spawnedArgs := none }
  | some _chromePath =>
    let resolved : Option DisplayInfo × LaunchState × Nat :=
      match lst.cachedVirtualDisplay with
      | some v => (v, lst, 0)
      | none =>
        let v := (ensureVirtualDisplay env).1
        (v, { cachedVirtualDisplay := some v }, 1)
    let placement := resolved.1
    let lst' := resolved.2.1
    let queries := resolved.2.2
    let windowPosition := placement.map (fun d => (d.originX, d.originY))
    let useHeadless := windowPosition.isNone && !opts.headless
    let headlessEff := if useHeadless then true else opts.headless
    let userDataDir := workspaceDataDir env ++ "/" ++ opts.workspaceName
    let args := buildChromeArgs userDataDir opts.port headlessEff opts.windowSize windowPosition
    let proc : ChildProcess := { pid := newPid, killed := false, alive := true }
    match (waitForCDP attempts 30 500).1 with
    | Except.error e =>
      { result := Except.error e, lst := lst', displayQueries := queries,
        placementUsed := placement, headlessUsed := headlessEff, spawnedArgs := some args }
    | Except.ok ws =>
      { result := Except.ok { process := proc, port := opts.port,
                              profileDirectory := opts.profileDirectory,
                              wsEndpoint := some ws },
        lst := lst', displayQueries := queries, placementUsed := placement,
        headlessUsed := headlessEff, spawnedArgs := some args }

/-! ## WorkspaceManager -/

/-- `WorkspaceConfig` from types.ts. -/
structure WorkspaceConfig where
  profileDirectory : String
  port : Nat
deriving DecidableEq, Repr

/-- WorkspaceManager state: the immutable config map, the tracked running
instances, and the current-workspace pointer. -/
structure WMState where
  config : List (String × WorkspaceConfig)
  workspaces : List (String × ChromeInstance)
  currentWorkspace : Option String
deriving DecidableEq, Repr

def joinComma : List String → String
  | [] => ""
  | [s] => s
  | s :: rest => s ++ ", " ++ joinComma rest

/-- Outcome of one `switchWorkspace` call; `spawned` counts browser OS
processes spawned during the call. -/
structure SwitchResult where
  result : Except String ChromeInstance
  wm : WMState
  lst : LaunchState
  spawned : Nat
deriving Repr

/-- `WorkspaceManager.switchWorkspace`: unknown names are rejected listing
the valid ones; a tracked instance is returned unchanged; otherwise
`launchChrome` runs with `headless: false`, the new instance is recorded,
and in every non-throwing path the current-workspace pointer is set. -/
def switchWorkspace (env : LaunchEnv) (attempts : Nat → Except String String)
    (newPid : Nat) (lst : LaunchState) (wm : WMState) (name : String) : SwitchResult :=
  match mapLookup wm.config name with
  | none =>
    { result := Except.error ("Unknown workspace: " ++ name ++ ". Available: " ++
        joinComma (wm.config.map (fun p => p.1))),
      wm := wm, lst := lst, spawned := 0 }
  | some cfg =>
    match mapLookup wm.workspaces name with
    | some inst =>
      { result := Except.ok inst, wm := { wm with currentWorkspace := some name },
        lst := lst, spawned := 0 }
    | none =>
      let lr := launchChromeM env lst
        { workspaceName := name, profileDirectory := cfg.profileDirectory,
          port := cfg.port, headless := false } attempts newPid
      match lr.result with
      | Except.error e =>
        { result := Except.error e, wm := wm, lst := lr.lst,
          spawned := if lr.spawnedArgs.isSome then 1 else 0 }
      | Except.ok inst =>
        { result := Except.ok inst,
          wm :=
            { wm with
              workspaces := mapSet wm.workspaces name inst
              currentWorkspace := some name },
          lst := lr.lst, spawned := if lr.spawnedArgs.isSome then 1 else 0 }

/-- `WorkspaceManager.getCurrentInstance`. -/
def getCurrentInstance (wm : WMState) : Option ChromeInstance :=
  match wm.currentWorkspace with
  | none => none
  | some w => mapLookup wm.workspaces w

def currentInstanceEndpoint (wm : WMState) : Option String :=
  (getCurrentInstance wm).bind (fun i => i.wsEndpoint)

/-- `WorkspaceManager.stopWorkspace`: kill and untrack the instance when one
exists, clearing the pointer when it referenced this name. -/
def wmStop (wm : WMState) (name : String) : WMState :=
  match mapLookup wm.workspaces name with
  | none => wm
  | some _inst =>
    let ws' := mapDelete wm.workspaces name
    if wm.currentWorkspace = some name then
      { wm with workspaces := ws', currentWorkspace := none }
    else
      { wm with workspaces := ws' }

/-! ## Live browser state seen over a connection -/

instance {ε α : Type} [DecidableEq ε] [DecidableEq α] : DecidableEq (Except ε α) :=
  fun a b =>
    match a, b with
    | Except.error x, Except.error y =>
      if h : x = y then isTrue (by rw [h]) else isFalse (fun he => h (by cases he; rfl))
    | Except.error _, Except.ok _ => isFalse (fun he => Except.noConfusion he)
    | Except.ok _, Except.error _ => isFalse (fun he => Except.noConfusion he)
    | Except.ok x, Except.ok y =>
      if h : x = y then isTrue (by rw [h]) else isFalse (fun he => h (by cases he; rfl))

/-- A page reachable over a connection. `marker` is the outcome of
evaluating the embedded `__devBrowserPageName` global: `Except.error` when
the page is closed or navigating, otherwise the marker value (if any). -/
structure LivePage where
  pageId : Nat
  targetId : String
  marker : Except Unit (Option String)
deriving DecidableEq, Repr

/-- A browsing context with its pages and the markers written by its
installed init scripts. -/
structure BContext where
  ctxId : Nat
  pages : List LivePage
  initScriptMarkers : List String
deriving DecidableEq, Repr

/-- The contexts visible through one browser connection. -/
structure BrowserData where
  contexts : List BContext
deriving DecidableEq, Repr

/-! ## Client-side registry (client.ts `connect`) -/

/-- Client registry state: logical name to browsing-context id, plus the
connected browser. -/
structure ClientState where
  registry : List (String × Nat)
  browser : BrowserData
deriving DecidableEq, Repr

/-- `close(name)` of the client: close the context and drop the entry when
present, and do nothing at all when the name is absent. -/
def clientClose (cs : ClientState) (name : String) : ClientState :=
  match mapLookup cs.registry name with
  | none => cs
  | some ctxId =>
    { registry := mapDelete cs.registry name,
      browser := { contexts := cs.browser.contexts.filter (fun c => c.ctxId ≠ ctxId) } }

/-! ## Workspace server (workspace-server.ts) -/

/-- `PageEntry` of the server registry. -/
structure PageEntry where
  pageId : Nat
  targetId : String
  workspace : String
deriving DecidableEq, Repr

/-- Full mutable state of the workspace server. -/
structure ServerState where
  pageRegistry : List (String × PageEntry)
  browserConnections : List (String × BrowserData)
  wm : WMState
  lst : LaunchState
  nextId : Nat
  sockets : List Nat
  listening : Bool
  cleaningUp : Bool
deriving DecidableEq, Repr

/-- External collaborators of the server handlers: the launch environment,
the CDP readiness outcomes, the pid of a spawned process, and the browser
contents observed when Playwright connects over CDP to an endpoint. -/
structure ServerEnv where
  lenv : LaunchEnv
  attempts : Nat → Except String String
  newPid : Nat
  connectCDP : String → BrowserData

inductive RespBody
  | successTrue
  | pageInfo (endpoint : String) (name : String) (targetId : String)
  | err (msg : String)
deriving DecidableEq, Repr

structure Resp where
  status : Nat
  body : RespBody
deriving DecidableEq, Repr

/-- Protocol round-trips issued by the page get-or-create handler. -/
inductive PAction
  | newPage (ctxId : Nat)
  | setViewport (pageId : Nat) (w h : Nat)
  | newCDPSession (pageId : Nat)
  | getTargetInfo (pageId : Nat)
  | detachCDP
  | newContext
  | addInitScript (marker : String)
  | evaluateMarker (pageId : Nat)
deriving DecidableEq, Repr

structure ViewportSize where
  width : Nat
  height : Nat
deriving DecidableEq, Repr

/-- `getCurrentBrowser`: return the pooled connection of the current
workspace, or — when no workspace is active — switch to the configured
default workspace, connect over CDP if needed, and return that connection.
The returned string is the workspace name owning the connection (equal to
the current-workspace pointer of the returned state). -/
def getCurrentBrowser (env : ServerEnv) (defaultWs : String) (st : ServerState) :
    Except String (String × BrowserData × ServerState) :=
  match st.wm.currentWorkspace with
  | some cur =>
    match mapLookup st.browserConnections cur with
    | some b => Except.ok (cur, b, st)
    | none => Except.error ("No browser connection for workspace: " ++ cur)
  | none =>
    let sr := switchWorkspace env.lenv env.attempts env.newPid st.lst st.wm defaultWs
    match sr.result with
    | Except.error e => Except.error e
    | Except.ok inst =>
      let st1 := { st with wm := sr.wm, lst := sr.lst }
      let st2 :=
        match inst.wsEndpoint, mapLookup st1.browserConnections defaultWs with
        | some ep, none =>
          let conns' := mapSet st1.browserConnections defaultWs (env.connectCDP ep)
          { st1 with browserConnections := conns' }
        | _, _ => st1
      match mapLookup st2.browserConnections defaultWs with
      | some b => Except.ok (defaultWs, b, st2)
      | none => Except.error ("No browser connection for workspace: " ++ defaultWs)

/-- POST /pages: reject a missing or empty name; return the registered entry
when the name is present; otherwise create a new page inside the FIRST
existing context of the current workspace's browser (500 when there is
none), read its target id over a throwaway CDP session, record the entry
owned by the current workspace, and respond with endpoint, name and target
id. Also returns the protocol round-trips performed. -/
def postPages (env : ServerEnv) (defaultWs : String) (st : ServerState)
    (name? : Option String) (viewport : Option ViewportSize) :
    ServerState × Resp × List PAction :=
  match name? with
  | none => (st, ⟨400, RespBody.err ("name is required and must be a string")⟩, [])
  | some name =>
    if name = "" then
      (st, ⟨400, RespBody.err ("name is required and must be a string")⟩, [])
    else
      match mapLookup st.pageRegistry name with
      | some entry =>
        let ep := (currentInstanceEndpoint st.wm).getD ""
        (st, ⟨200, RespBody.pageInfo ep name entry.targetId⟩, [])
      | none =>
        match getCurrentBrowser env defaultWs st with
        | Except.error e =>
          (st, ⟨500, RespBody.err ("Failed to create page: " ++ e)⟩, [])
        | Except.ok (ws, b, st1) =>
          match b.contexts with
          | [] => (st1, ⟨500, RespBody.err ("No browser context available")⟩, [])
          | ctx :: restCtxs =>
            let pid := st1.nextId
            let tid := "TARGET-" ++ toString pid
            let newPg : LivePage :=
              { pageId := pid, targetId := tid,
                marker := Except.ok ctx.initScriptMarkers.getLast? }
            let ctx' := { ctx with pages := ctx.pages ++ [newPg] }
            let b' : BrowserData := { contexts := ctx' :: restCtxs }
            let vpActs :=
              match viewport with
              | some vp => [PAction.setViewport pid vp.width vp.height]
              | none => []
            let curWs := st1.wm.currentWorkspace.getD ""
            let entry : PageEntry := { pageId := pid, targetId := tid, workspace := curWs }
            let st2 :=
              { st1 with
                browserConnections := mapSet st1.browserConnections ws b'
                pageRegistry := mapSet st1.pageRegistry name entry
                nextId := st1.nextId + 1 }
            let ep := (currentInstanceEndpoint st2.wm).getD ""
            (st2, ⟨200, RespBody.pageInfo ep name tid⟩,
             [PAction.newPage ctx.ctxId] ++ vpActs ++
               [PAction.newCDPSession pid, PAction.getTargetInfo pid, PAction.detachCDP])

/-- DELETE /pages/:name: close and remove a present entry with a success
response; respond 404 page not found when the name is absent. -/
def deletePageHandler (st : ServerState) (name : String) : ServerState × Resp :=
  match mapLookup st.pageRegistry name with
  | some _entry =>
    ({ st with pageRegistry := mapDelete st.pageRegistry name },
     ⟨200, RespBody.successTrue⟩)
  | none => (st, ⟨404, RespBody.err ("page not found")⟩)

/-- Iterated purge of the POST /workspace/stop handler: delete every page
entry owned by the stopped workspace while walking the registry. -/
def purgePagesFor (reg : List (String × PageEntry)) (w : String) :
    List (String × PageEntry) :=
  match reg with
  | [] => []
  | (n, e) :: rest =>
    if e.workspace = w then purgePagesFor rest w
    else (n, e) :: purgePagesFor rest w

/-- POST /workspace/stop: reject a falsy workspace value; otherwise purge
the pages owned by the workspace, drop its pooled connection, and stop its
Chrome instance. -/
def stopWorkspaceHandler (st : ServerState) (workspace? : Option String) :
    ServerState × Resp :=
  match workspace? with
  | none => (st, ⟨400, RespBody.err ("workspace is required")⟩)
  | some w =>
    if w = "" then (st, ⟨400, RespBody.err ("workspace is required")⟩)
    else
      ({ st with
         pageRegistry := purgePagesFor st.pageRegistry w
         browserConnections := mapDelete st.browserConnections w
         wm := wmStop st.wm w },
       ⟨200, RespBody.successTrue⟩)

/-- Steps of server shutdown, in execution order. -/
inductive ShutdownAction
  | destroySocket (id : Nat)
  | closePage (name : String)
  | closeBrowser (w : String)
  | killInstance (w : String)
  | serverClose
deriving DecidableEq, Repr

/-- `cleanup`: a re-entrant call while (or after) a cleanup ran is a no-op
thanks to the one-shot flag; otherwise destroy every still-open client
socket, close every tracked page, close every pooled browser connection,
stop every workspace instance, and finally stop accepting connections. -/
def cleanup (st : ServerState) : ServerState × List ShutdownAction :=
  if st.cleaningUp then (st, [])
  else
    let st1 := { st with cleaningUp := true }
    let socketActs := st1.sockets.map ShutdownAction.destroySocket
    let pageActs := st1.pageRegistry.map (fun p => ShutdownAction.closePage p.1)
    let browserActs := st1.browserConnections.map (fun c => ShutdownAction.closeBrowser c.1)
    let killActs := st1.wm.workspaces.map (fun w => ShutdownAction.killInstance w.1)
    ({ st1 with
       sockets := []
       pageRegistry := []
       browserConnections := []
       wm := { st1.wm with workspaces := [], currentWorkspace := none }
       listening := false },
     socketActs ++ pageActs ++ browserActs ++ killActs ++ [ShutdownAction.serverClose])

/-! ## Concrete fixtures used by witnesses and counterexamples -/

def sampleProcess : ChildProcess := { pid := 4242, killed := false, alive := true }

def sampleInstance : ChromeInstance :=
  { process := sampleProcess, port := 9230, profileDirectory := "Default",
    wsEndpoint := some ("ws://x") }

def linuxEnv : LaunchEnv :=
  { platform := "linux", home := "/h", localAppData := "",
    detectResults := [], createResult := Except.error () }

def darwinEnvFail : LaunchEnv :=
  { platform := "darwin", home := "/h", localAppData := "",
    detectResults := [Except.error (), Except.error ()], createResult := Except.error () }

def markedContext : BContext :=
  { ctxId := 0,
    pages := [{ pageId := 1, targetId := "TARGET-1", marker := Except.ok (some ("home")) }],
    initScriptMarkers := [] }

def markedBrowser : BrowserData := { contexts := [markedContext] }

def wmPersonal : WMState :=
  { config := [("personal", { profileDirectory := "Default", port := 9230 })],
    workspaces := [("personal", sampleInstance)],
    currentWorkspace := some ("personal") }

def stMarked : ServerState :=
  { pageRegistry := [], browserConnections := [("personal", markedBrowser)],
    wm := wmPersonal, lst := { cachedVirtualDisplay := some none }, nextId := 2,
    sockets := [], listening := true, cleaningUp := false }

def sampleServerEnv : ServerEnv :=
  { lenv := linuxEnv, attempts := fun _ => Except.error ("no"), newPid := 7,
    connectCDP := fun _ => { contexts := [] } }

def failingAttempts : Nat → Except String String := fun _ => Except.error ("no")

def lstCachedNone : LaunchState := { cachedVirtualDisplay := some none }

def lstUnqueried : LaunchState := { cachedVirtualDisplay := none }

def optsSample : ChromeLaunchOptions :=
  { workspaceName := "personal", profileDirectory := "Default", port := 9230,
    headless := false }

def wmWork : WMState :=
  { config := [("work", { profileDirectory := "James-Work", port := 9231 })],
    workspaces := [], currentWorkspace := none }

/-- The placement a launch call uses: the cached value when the module cache
is populated, otherwise the result of a fresh `ensureVirtualDisplay`. -/
def resolvedPlacement (env : LaunchEnv) (lst : LaunchState) : Option DisplayInfo :=
  match lst.cachedVirtualDisplay with
  | some v => v
  | none => (ensureVirtualDisplay env).1

/-- `cachedVirtualDisplay?.origin` of the source. -/
def windowPositionOf (p : Option DisplayInfo) : Option (Int × Int) :=
  p.map (fun d => (d.originX, d.originY))

/-- Effective headless mode of `launchChrome`:
`useHeadless = !windowPosition && !options.headless`, then
`useHeadless ? true : options.headless`. -/
def effectiveHeadless (headlessRequested : Bool) (p : Option DisplayInfo) : Bool :=
  if (windowPositionOf p).isNone && !headlessRequested then true else headlessRequested

def entryWork : PageEntry := { pageId := 1, targetId := "t", workspace := "work" }

def stShutdown : ServerState :=
  { pageRegistry := [("p", entryWork)],
    browserConnections := [("work", { contexts := [] })],
    wm := { config := [], workspaces := [("work", sampleInstance)],
            currentWorkspace := some ("work") },
    lst := { cachedVirtualDisplay := none }, nextId := 0, sockets := [7],
    listening := true, cleaningUp := false }

/-! ## Helper lemmas -/

theorem mapLookup_mapSet_self {α : Type} (m : List (String × α)) (k : String) (v : α) :
    mapLookup (mapSet m k v) k = some v := by
  induction m with
  | nil => simp [mapSet, mapLookup]
  | cons hd tl ih =>
    obtain ⟨k0, v0⟩ := hd
    by_cases h : k0 = k
    · simp [mapSet, mapLookup, h]
    · simp [mapSet, mapLookup, h, ih]

theorem mapLookup_mapDelete_ne {α : Type} (m : List (String × α)) (k m' : String)
    (h : m' ≠ k) : mapLookup (mapDelete m k) m' = mapLookup m m' := by
  induction m with
  | nil => simp [mapDelete, mapLookup]
  | cons hd tl ih =>
    obtain ⟨k0, v0⟩ := hd
    by_cases hk : k0 = k
    · subst hk
      have : k0 ≠ m' := fun he => h (he ▸ rfl)
      simp [mapDelete, mapLookup, this]
    · simp [mapDelete, mapLookup, hk, ih]


theorem mem_purgePagesFor (reg : List (String × PageEntry)) (w : String)
    (n : String) (e : PageEntry) :
    (n, e) ∈ purgePagesFor reg w ↔ ((n, e) ∈ reg ∧ e.workspace ≠ w) := by
  induction reg with
  | nil => simp [purgePagesFor]
  | cons hd tl ih =>
    obtain ⟨n0, e0⟩ := hd
    by_cases h : e0.workspace = w
    · simp only [purgePagesFor, if_pos h, ih, List.mem_cons]
      constructor
      · rintro ⟨hm, hne⟩
        exact ⟨Or.inr hm, hne⟩
      · rintro ⟨hm | hm, hne⟩
        · cases hm
          exact absurd h hne
        · exact ⟨hm, hne⟩
    · simp only [purgePagesFor, if_neg h, List.mem_cons, ih]
      constructor
      · rintro (hm | ⟨hm, hne⟩)
        · cases hm
          exact ⟨Or.inl rfl, h⟩
        · exact ⟨Or.inr hm, hne⟩
      · rintro ⟨hm | hm, hne⟩
        · exact Or.inl hm
        · exact Or.inr ⟨hm, hne⟩

theorem wmState_set_current_self (wm : WMState) (name : String)
    (h : wm.currentWorkspace = some name) :
    { wm with currentWorkspace := some name } = wm := by
  cases wm
  simp_all

theorem wmStop_lookup_other (wm : WMState) (w m : String) (hm : m ≠ w) :
    mapLookup (wmStop wm w).workspaces m = mapLookup wm.workspaces m := by
  unfold wmStop
  cases hs : mapLookup wm.workspaces w
  · rfl
  · by_cases hc : wm.currentWorkspace = some w <;>
      simp [hc, mapLookup_mapDelete_ne _ _ _ hm]

/-! ## Claims -/

/-- C2 (code_bug evidence): for a running instance (signallable, `killed`
flag clear) whose process ignores SIGTERM and has NOT exited by the end of
the 3-second grace period, `killChrome` delivers only the SIGTERM at time
0 and never delivers the SIGKILL: the timer's guard re-reads Node's
`killed` flag, which was already set to true by the successful SIGTERM
send, so the forced stop is unreachable — contradicting the claim (and the
code's own comment) that a forced stop signal is sent when the process has
not exited within the grace period. -/
theorem c2_forced_kill_never_sent :
    (killChrome sampleInstance false).2 = [(0, Signal.sigterm)]
    ∧ (killChrome sampleInstance false).2 ≠
        [(0, Signal.sigterm), (3000, Signal.sigkill)] := by
  decide

/-- C3 (counterexample): for a page name absent from the registry, the
DELETE /pages/:name handler leaves the state unchanged but responds 404
"page not found" — an error response, not the success no-op the claim
asserts. -/
theorem c3_counterexample :
    deletePageHandler stMarked "p" = (stMarked, ⟨404, RespBody.err ("page not found")⟩)
    ∧ (deletePageHandler stMarked "p").2.status ≠ 200
    ∧ (deletePageHandler stMarked "p").2.body ≠ RespBody.successTrue := by
  decide

/-- C3 (amended): for every page name absent from the registry, DELETE
/pages/:name leaves the registry and all other state unchanged but responds
with a 404 not-found error rather than success; the client library's
`close(name)` is the idempotent no-op. -/
theorem c3_amended_absent_close (st : ServerState) (cs : ClientState) (name : String)
    (hsrv : mapLookup st.pageRegistry name = none)
    (hcli : mapLookup cs.registry name = none) :
    deletePageHandler st name = (st, ⟨404, RespBody.err ("page not found")⟩)
    ∧ clientClose cs name = cs := by
  constructor
  · unfold deletePageHandler
    rw [hsrv]
  · unfold clientClose
    rw [hcli]

/-- C3 witness: the amended statement at a concrete absent name. -/
theorem c3_amended_witness :
    deletePageHandler stMarked "q" = (stMarked, ⟨404, RespBody.err ("page not found")⟩)
    ∧ clientClose { registry := [], browser := markedBrowser } "q" =
        { registry := [], browser := markedBrowser } :=
  c3_amended_absent_close stMarked { registry := [], browser := markedBrowser } "q"
    (by decide) (by decide)

/-- C7 (counterexample): on a server holding one open socket, one tracked
page, one pooled connection and one running workspace, `cleanup` destroys
the client socket FIRST and stops accepting connections LAST — not the
claimed order (pages, then connections, then processes, then stop
accepting, then sockets). -/
theorem c7_counterexample :
    (cleanup stShutdown).2 =
      [ShutdownAction.destroySocket 7, ShutdownAction.closePage ("p"),
       ShutdownAction.closeBrowser ("work"), ShutdownAction.killInstance ("work"),
       ShutdownAction.serverClose]
    ∧ (cleanup stShutdown).2 ≠
      [ShutdownAction.closePage ("p"), ShutdownAction.closeBrowser ("work"),
       ShutdownAction.killInstance ("work"), ShutdownAction.serverClose,
       ShutdownAction.destroySocket 7] := by
  decide

/-- C7 (amended): shutdown is executed exactly once (the one-shot
`cleaningUp` flag makes any re-entrant trigger a no-op) and performs its
steps in the strict order: forcibly close still-open client sockets, then
close tracked pages, then close pooled connections, then terminate all
processes, then stop accepting new connections. -/
theorem c7_amended_shutdown_once_ordered (st : ServerState) (h : st.cleaningUp = false) :
    (cleanup st).2 =
      st.sockets.map ShutdownAction.destroySocket
        ++ st.pageRegistry.map (fun p => ShutdownAction.closePage p.1)
        ++ st.browserConnections.map (fun c => ShutdownAction.closeBrowser c.1)
        ++ st.wm.workspaces.map (fun w => ShutdownAction.killInstance w.1)
        ++ [ShutdownAction.serverClose]
    ∧ (cleanup st).1.cleaningUp = true
    ∧ cleanup ((cleanup st).1) = ((cleanup st).1, []) := by
  refine ⟨?_, ?_, ?_⟩ <;> simp [cleanup, h]

/-- C7 witness: the amended shutdown behavior on a concrete server state. -/
theorem c7_amended_witness :
    (cleanup stShutdown).2 =
      [ShutdownAction.destroySocket 7, ShutdownAction.closePage ("p"),
       ShutdownAction.closeBrowser ("work"), ShutdownAction.killInstance ("work"),
       ShutdownAction.serverClose]
    ∧ (cleanup stShutdown).1.cleaningUp = true
    ∧ cleanup ((cleanup stShutdown).1) = ((cleanup stShutdown).1, []) :=
  c7_amended_shutdown_once_ordered stShutdown rfl

/-- C9 (confirmed): POST /workspace/stop removes exactly the page entries
owned by the stopped workspace — an entry survives iff it was present and
owned by a different workspace — while the pooled connections and tracked
instances of every other workspace are untouched, and the handler responds
success. -/
theorem c9_stop_workspace_purges_exactly_owned (st : ServerState) (w n m : String)
    (e : PageEntry) (hw : w ≠ "") (hm : m ≠ w) :
    ((n, e) ∈ ((stopWorkspaceHandler st (some w)).1).pageRegistry ↔
       ((n, e) ∈ st.pageRegistry ∧ e.workspace ≠ w))
    ∧ mapLookup ((stopWorkspaceHandler st (some w)).1).browserConnections m =
        mapLookup st.browserConnections m
    ∧ mapLookup ((stopWorkspaceHandler st (some w)).1).wm.workspaces m =
        mapLookup st.wm.workspaces m
    ∧ (stopWorkspaceHandler st (some w)).2 = ⟨200, RespBody.successTrue⟩ := by
  simp only [stopWorkspaceHandler, if_neg hw]
  exact ⟨mem_purgePagesFor st.pageRegistry w n e,
         mapLookup_mapDelete_ne st.browserConnections w m hm,
         wmStop_lookup_other st.wm w m hm, trivial⟩

/-- C9 witness: the purge behavior at a concrete state holding one page
owned by the stopped workspace. -/
theorem c9_witness :
    (("p", entryWork) ∈ ((stopWorkspaceHandler stShutdown (some ("work"))).1).pageRegistry ↔
       (("p", entryWork) ∈ stShutdown.pageRegistry ∧ entryWork.workspace ≠ "work"))
    ∧ mapLookup ((stopWorkspaceHandler stShutdown (some ("work"))).1).browserConnections
        "personal" = mapLookup stShutdown.browserConnections "personal"
    ∧ mapLookup ((stopWorkspaceHandler stShutdown (some ("work"))).1).wm.workspaces
        "personal" = mapLookup stShutdown.wm.workspaces "personal"
    ∧ (stopWorkspaceHandler stShutdown (some ("work"))).2 = ⟨200, RespBody.successTrue⟩ :=
  c9_stop_workspace_purges_exactly_owned stShutdown "work" "p" "personal" entryWork
    (by decide) (by decide)

/-- C4 (confirmed): for a configured workspace, a tracked instance is
returned unchanged with no launch; and whenever a `switchWorkspace` call
returns an instance, an immediately following `switchWorkspace` for the
same name returns the very same instance, changes nothing, spawns no
process, and the two calls together spawn at most one process. -/
theorem c4_switchWorkspace_idempotent
    (env1 env2 : LaunchEnv) (att1 att2 : Nat → Except String String)
    (pid1 pid2 : Nat) (lst : LaunchState) (wm : WMState) (name : String)
    (cfg : WorkspaceConfig) (inst1 : ChromeInstance)
    (hcfg : mapLookup wm.config name = some cfg)
    (h1 : (switchWorkspace env1 att1 pid1 lst wm name).result = Except.ok inst1) :
    (mapLookup wm.workspaces name = none
     ∨ (mapLookup wm.workspaces name = some inst1
        ∧ switchWorkspace env1 att1 pid1 lst wm name =
            { result := Except.ok inst1, wm := { wm with currentWorkspace := some name },
              lst := lst, spawned := 0 }))
    ∧ switchWorkspace env2 att2 pid2
        (switchWorkspace env1 att1 pid1 lst wm name).lst
        (switchWorkspace env1 att1 pid1 lst wm name).wm name =
      { result := Except.ok inst1,
        wm := (switchWorkspace env1 att1 pid1 lst wm name).wm,
        lst := (switchWorkspace env1 att1 pid1 lst wm name).lst, spawned := 0 }
    ∧ (switchWorkspace env1 att1 pid1 lst wm name).spawned +
        (switchWorkspace env2 att2 pid2
          (switchWorkspace env1 att1 pid1 lst wm name).lst
          (switchWorkspace env1 att1 pid1 lst wm name).wm name).spawned ≤ 1 := by
  cases hws : mapLookup wm.workspaces name with
  | some inst0 =>
    have e1 : switchWorkspace env1 att1 pid1 lst wm name =
        { result := Except.ok inst0, wm := { wm with currentWorkspace := some name },
          lst := lst, spawned := 0 } := by
      simp [switchWorkspace, hcfg, hws]
    rw [e1] at h1
    simp only [Except.ok.injEq] at h1
    subst h1
    refine ⟨Or.inr ⟨rfl, e1⟩, ?_, ?_⟩
    · rw [e1]
      simp [switchWorkspace, hcfg, hws]
    · rw [e1]
      simp [switchWorkspace, hcfg, hws]
  | none =>
    refine ⟨Or.inl rfl, ?_⟩
    simp only [switchWorkspace, hcfg, hws] at h1 ⊢
    cases hlr : (launchChromeM env1 lst
        { workspaceName := name, profileDirectory := cfg.profileDirectory,
          port := cfg.port, headless := false } att1 pid1).result with
    | error e =>
      rw [hlr] at h1
      simp at h1
    | ok inst =>
      rw [hlr] at h1
      simp only [Except.ok.injEq] at h1
      subst h1
      constructor
      · simp [switchWorkspace, hcfg, mapLookup_mapSet_self]
      · simp [switchWorkspace, hcfg, mapLookup_mapSet_self]
        split <;> simp

/-- C4 witness: the idempotence facts at a concrete already-running
workspace. -/
theorem c4_witness :
    (mapLookup wmPersonal.workspaces "personal" = none
     ∨ (mapLookup wmPersonal.workspaces "personal" = some sampleInstance
        ∧ switchWorkspace linuxEnv failingAttempts 7 lstCachedNone wmPersonal "personal" =
            { result := Except.ok sampleInstance,
              wm := { wmPersonal with currentWorkspace := some ("personal") },
              lst := lstCachedNone, spawned := 0 }))
    ∧ switchWorkspace linuxEnv failingAttempts 8
        (switchWorkspace linuxEnv failingAttempts 7 lstCachedNone wmPersonal "personal").lst
        (switchWorkspace linuxEnv failingAttempts 7 lstCachedNone wmPersonal "personal").wm
        "personal" =
      { result := Except.ok sampleInstance,
        wm := (switchWorkspace linuxEnv failingAttempts 7 lstCachedNone wmPersonal
                "personal").wm,
        lst := (switchWorkspace linuxEnv failingAttempts 7 lstCachedNone wmPersonal
                "personal").lst,
        spawned := 0 }
    ∧ (switchWorkspace linuxEnv failingAttempts 7 lstCachedNone wmPersonal
        "personal").spawned +
        (switchWorkspace linuxEnv failingAttempts 8
          (switchWorkspace linuxEnv failingAttempts 7 lstCachedNone wmPersonal
            "personal").lst
          (switchWorkspace linuxEnv failingAttempts 7 lstCachedNone wmPersonal
            "personal").wm
          "personal").spawned ≤ 1 :=
  c4_switchWorkspace_idempotent linuxEnv linuxEnv failingAttempts failingAttempts 7 8
    lstCachedNone wmPersonal "personal" { profileDirectory := "Default", port := 9230 }
    sampleInstance (by decide) rfl

/-- C1 (counterexample): the registry is empty and the current workspace's
browser holds a live page whose embedded marker equals the requested name
"home" (its target id is TARGET-1). The POST /pages handler neither reads
any marker nor adopts that page: it answers with the freshly created page's
target id TARGET-2 ≠ TARGET-1, performs no marker evaluation, creates no
new browsing context (the connection still holds exactly one context, with
the new page appended to it), and installs no initialization script —
refuting every reconciliation step the claim attributes to POST /pages. -/
theorem c1_counterexample :
    (postPages sampleServerEnv "personal" stMarked (some ("home")) none).2 =
      (⟨200, RespBody.pageInfo ("ws://x") ("home") ("TARGET-2")⟩,
       [PAction.newPage 0, PAction.newCDPSession 2, PAction.getTargetInfo 2,
        PAction.detachCDP])
    ∧ markedContext.pages.map (fun pg => pg.marker) = [Except.ok (some ("home"))]
    ∧ markedContext.pages.map (fun pg => pg.targetId) = ["TARGET-1"]
    ∧ ("TARGET-2" : String) ≠ "TARGET-1"
    ∧ PAction.evaluateMarker 1 ∉
        (postPages sampleServerEnv "personal" stMarked (some ("home")) none).2.2
    ∧ PAction.newContext ∉
        (postPages sampleServerEnv "personal" stMarked (some ("home")) none).2.2
    ∧ PAction.addInitScript ("home") ∉
        (postPages sampleServerEnv "personal" stMarked (some ("home")) none).2.2
    ∧ ((postPages sampleServerEnv "personal" stMarked (some ("home"))
          none).1.browserConnections.map (fun c => c.2.contexts.length)) = [1] := by
  decide

/-- C1 (amended): for a name absent from the registry, POST /pages performs
no live-state reconciliation at all: it creates a new page inside the FIRST
existing browsing context of the current workspace's connection, records
the mapping with a fresh target id owned by the current workspace, and
responds with that target id — evaluating no markers, creating no new
context and installing no initialization script. (Marker-based adoption
with isolated per-name contexts and init scripts exists only in the client
library, where contexts are enumerated at connect time.) -/
theorem c1_amended_create_in_first_context
    (env : ServerEnv) (d : String) (st : ServerState) (name w : String)
    (vp : Option ViewportSize) (b : BrowserData) (ctx : BContext) (rest : List BContext)
    (p : Nat) (m : String)
    (hname : name ≠ "")
    (hreg : mapLookup st.pageRegistry name = none)
    (hcur : st.wm.currentWorkspace = some w)
    (hconn : mapLookup st.browserConnections w = some b)
    (hctx : b.contexts = ctx :: rest) :
    mapLookup (postPages env d st (some name) vp).1.pageRegistry name =
      some { pageId := st.nextId, targetId := "TARGET-" ++ toString st.nextId,
             workspace := w }
    ∧ mapLookup (postPages env d st (some name) vp).1.browserConnections w =
      some { contexts :=
        { ctxId := ctx.ctxId,
          pages := ctx.pages ++
            [{ pageId := st.nextId, targetId := "TARGET-" ++ toString st.nextId,
               marker := Except.ok ctx.initScriptMarkers.getLast? }],
          initScriptMarkers := ctx.initScriptMarkers } :: rest }
    ∧ (postPages env d st (some name) vp).2.1 =
      ⟨200, RespBody.pageInfo ((currentInstanceEndpoint st.wm).getD "") name
             ("TARGET-" ++ toString st.nextId)⟩
    ∧ PAction.newContext ∉ (postPages env d st (some name) vp).2.2
    ∧ PAction.evaluateMarker p ∉ (postPages env d st (some name) vp).2.2
    ∧ PAction.addInitScript m ∉ (postPages env d st (some name) vp).2.2 := by
  refine ⟨?_, ?_, ?_, ?_, ?_, ?_⟩ <;>
    simp only [postPages, getCurrentBrowser, hcur, hconn, hreg, hctx, if_neg hname] <;>
    cases vp <;>
    simp [mapLookup_mapSet_self, hcur]

/-- C1 witness: the amended statement at a concrete state. -/
theorem c1_amended_witness :
    mapLookup (postPages sampleServerEnv "personal" stMarked (some ("home"))
        none).1.pageRegistry "home" =
      some { pageId := stMarked.nextId,
             targetId := "TARGET-" ++ toString stMarked.nextId, workspace := "personal" }
    ∧ mapLookup (postPages sampleServerEnv "personal" stMarked (some ("home"))
        none).1.browserConnections "personal" =
      some { contexts :=
        { ctxId := markedContext.ctxId,
          pages := markedContext.pages ++
            [{ pageId := stMarked.nextId,
               targetId := "TARGET-" ++ toString stMarked.nextId,
               marker := Except.ok markedContext.initScriptMarkers.getLast? }],
          initScriptMarkers := markedContext.initScriptMarkers } :: [] }
    ∧ (postPages sampleServerEnv "personal" stMarked (some ("home")) none).2.1 =
      ⟨200, RespBody.pageInfo ((currentInstanceEndpoint stMarked.wm).getD "") "home"
             ("TARGET-" ++ toString stMarked.nextId)⟩
    ∧ PAction.newContext ∉
        (postPages sampleServerEnv "personal" stMarked (some ("home")) none).2.2
    ∧ PAction.evaluateMarker 1 ∉
        (postPages sampleServerEnv "personal" stMarked (some ("home")) none).2.2
    ∧ PAction.addInitScript ("home") ∉
        (postPages sampleServerEnv "personal" stMarked (some ("home")) none).2.2 :=
  c1_amended_create_in_first_context sampleServerEnv "personal" stMarked "home" "personal"
    none markedBrowser markedContext [] 1 "home" (by decide) (by decide) (by decide)
    (by decide) (by decide)

/-- C10 (confirmed): `switchWorkspace` on an already-tracked workspace sets
the current-workspace pointer to that name even though no launch occurs;
and a subsequent POST /pages call (which carries no workspace field) on a
server whose manager state is the post-switch state records the new page
entry with that workspace as its owner. -/
theorem c10_pointer_set_and_owner_recorded
    (env : LaunchEnv) (att : Nat → Except String String) (pid : Nat)
    (lst : LaunchState) (wm : WMState) (name : String) (cfg : WorkspaceConfig)
    (inst : ChromeInstance)
    (senv : ServerEnv) (d : String) (st : ServerState) (pname : String)
    (vp : Option ViewportSize) (b : BrowserData) (ctx : BContext) (rest : List BContext)
    (hcfg : mapLookup wm.config name = some cfg)
    (htracked : mapLookup wm.workspaces name = some inst)
    (hpname : pname ≠ "")
    (hreg : mapLookup st.pageRegistry pname = none)
    (hwm : st.wm = (switchWorkspace env att pid lst wm name).wm)
    (hconn : mapLookup st.browserConnections name = some b)
    (hctx : b.contexts = ctx :: rest) :
    switchWorkspace env att pid lst wm name =
      { result := Except.ok inst, wm := { wm with currentWorkspace := some name },
        lst := lst, spawned := 0 }
    ∧ mapLookup (postPages senv d st (some pname) vp).1.pageRegistry pname =
        some { pageId := st.nextId, targetId := "TARGET-" ++ toString st.nextId,
               workspace := name } := by
  have e1 : switchWorkspace env att pid lst wm name =
      { result := Except.ok inst, wm := { wm with currentWorkspace := some name },
        lst := lst, spawned := 0 } := by
    simp [switchWorkspace, hcfg, htracked]
  have hcur : st.wm.currentWorkspace = some name := by
    rw [hwm, e1]
  refine ⟨e1, ?_⟩
  simp only [postPages, getCurrentBrowser, hcur, hconn, hreg, hctx, if_neg hpname]
  cases vp <;> simp [mapLookup_mapSet_self, hcur]

/-- C10 witness: pointer update and ownership recording at concrete
states. -/
theorem c10_witness :
    switchWorkspace linuxEnv failingAttempts 7 lstCachedNone wmPersonal "personal" =
      { result := Except.ok sampleInstance,
        wm := { wmPersonal with currentWorkspace := some ("personal") },
        lst := lstCachedNone, spawned := 0 }
    ∧ mapLookup (postPages sampleServerEnv "personal" stMarked (some ("blog"))
        none).1.pageRegistry "blog" =
        some { pageId := stMarked.nextId,
               targetId := "TARGET-" ++ toString stMarked.nextId,
               workspace := "personal" } :=
  c10_pointer_set_and_owner_recorded linuxEnv failingAttempts 7 lstCachedNone wmPersonal
    "personal" { profileDirectory := "Default", port := 9230 } sampleInstance
    sampleServerEnv "personal" stMarked "blog" none markedBrowser markedContext []
    (by decide) (by decide) (by decide) (by decide) (by decide) (by decide) (by decide)

theorem waitForCDPGo_succ (attempts : Nat → Except String String)
    (mr d idx f : Nat) (le : Option String) (tried slept : Nat) :
    waitForCDPGo attempts mr d idx (f + 1) le tried slept =
      (match attempts idx with
       | Except.ok u => (Except.ok u, tried + 1, slept)
       | Except.error msg =>
         waitForCDPGo attempts mr d (idx + 1) f (some msg) (tried + 1) (slept + d)) := rfl

theorem waitForCDPGo_all_fail (attempts : Nat → Except String String)
    (msgs : Nat → String) (h : ∀ i, attempts i = Except.error (msgs i))
    (mr d : Nat) :
    ∀ (fuel idx : Nat) (le : Option String) (tried slept : Nat),
      waitForCDPGo attempts mr d idx (fuel + 1) le tried slept =
        (Except.error (cdpFailureMessage mr (some (msgs (idx + fuel)))),
         tried + fuel + 1, slept + (fuel + 1) * d) := by
  intro fuel
  induction fuel with
  | zero =>
    intro idx le tried slept
    rw [waitForCDPGo_succ, h idx]
    simp [waitForCDPGo]
  | succ f ih =>
    intro idx le tried slept
    rw [waitForCDPGo_succ, h idx]
    show waitForCDPGo attempts mr d (idx + 1) (f + 1) (some (msgs idx)) (tried + 1)
        (slept + d) = _
    rw [ih]
    refine Prod.ext ?_ (Prod.ext ?_ ?_)
    · have he : idx + 1 + f = idx + (f + 1) := by omega
      simp [he]
    · simp only []
      omega
    · simp only []
      ring

theorem buildChromeArgs_facts (u : String) (port : Nat) (headless : Bool)
    (ws : Nat × Nat) (wp : Option (Int × Int)) :
    ((∃ x y, ChromeArg.windowPosition x y ∈ buildChromeArgs u port headless ws wp) ↔
       wp.isSome)
    ∧ (ChromeArg.headlessNew ∈ buildChromeArgs u port headless ws wp ↔ headless = true) := by
  cases wp with
  | none => cases headless <;> simp [buildChromeArgs]
  | some xy => cases headless <;> simp [buildChromeArgs]

theorem launchChromeM_fields (env : LaunchEnv) (lst : LaunchState)
    (opts : ChromeLaunchOptions) (attempts : Nat → Except String String) (pid : Nat)
    (path : String) (hfound : findChromeExecutable env = some path) :
    (launchChromeM env lst opts attempts pid).placementUsed = resolvedPlacement env lst
    ∧ (launchChromeM env lst opts attempts pid).headlessUsed =
        effectiveHeadless opts.headless (resolvedPlacement env lst)
    ∧ (launchChromeM env lst opts attempts pid).spawnedArgs =
        some (buildChromeArgs (workspaceDataDir env ++ "/" ++ opts.workspaceName)
          opts.port (effectiveHeadless opts.headless (resolvedPlacement env lst))
          opts.windowSize (windowPositionOf (resolvedPlacement env lst)))
    ∧ (launchChromeM env lst opts attempts pid).lst.cachedVirtualDisplay =
        some (resolvedPlacement env lst)
    ∧ (lst.cachedVirtualDisplay ≠ none →
        (launchChromeM env lst opts attempts pid).displayQueries = 0)
    ∧ (lst.cachedVirtualDisplay = none →
        (launchChromeM env lst opts attempts pid).displayQueries = 1) := by
  cases hc : lst.cachedVirtualDisplay with
  | none =>
    cases hw : (waitForCDP attempts 30 500).1 <;>
      simp [launchChromeM, hfound, hc, hw, resolvedPlacement, effectiveHeadless,
        windowPositionOf]
  | some v =>
    cases hw : (waitForCDP attempts 30 500).1 <;>
      simp [launchChromeM, hfound, hc, hw, resolvedPlacement, effectiveHeadless,
        windowPositionOf]

/-- C5 (confirmed): in every launch that reaches the spawn (the executable
exists), the effective headless mode equals headlessRequested OR
"the resolved placement is null"; the spawned argument vector contains a
window-position argument iff a placement was resolved and the new-headless
flag iff the effective headless mode is on; and once the module cache
records a failed resolution (`some none`) — or a fresh resolution fails —
the launch is headless. -/
theorem c5_headless_and_window_position (env : LaunchEnv) (lst : LaunchState)
    (opts : ChromeLaunchOptions) (attempts : Nat → Except String String) (pid : Nat)
    (path : String) (hfound : findChromeExecutable env = some path) :
    (launchChromeM env lst opts attempts pid).headlessUsed =
      (opts.headless || (launchChromeM env lst opts attempts pid).placementUsed.isNone)
    ∧ (∃ args, (launchChromeM env lst opts attempts pid).spawnedArgs = some args
        ∧ ((∃ x y, ChromeArg.windowPosition x y ∈ args) ↔
            (launchChromeM env lst opts attempts pid).placementUsed.isSome)
        ∧ (ChromeArg.headlessNew ∈ args ↔
            (launchChromeM env lst opts attempts pid).headlessUsed = true))
    ∧ (lst.cachedVirtualDisplay = some none →
        (launchChromeM env lst opts attempts pid).headlessUsed = true)
    ∧ (lst.cachedVirtualDisplay = none → (ensureVirtualDisplay env).1 = none →
        (launchChromeM env lst opts attempts pid).headlessUsed = true) := by
  obtain ⟨hp, hh, hargs, _hcache, _hq0, _hq1⟩ :=
    launchChromeM_fields env lst opts attempts pid path hfound
  obtain ⟨hwp, hhn⟩ := buildChromeArgs_facts
    (workspaceDataDir env ++ "/" ++ opts.workspaceName) opts.port
    (effectiveHeadless opts.headless (resolvedPlacement env lst)) opts.windowSize
    (windowPositionOf (resolvedPlacement env lst))
  refine ⟨?_, ?_, ?_, ?_⟩
  · rw [hh, hp]
    cases hple : resolvedPlacement env lst <;> cases opts.headless <;>
      simp [effectiveHeadless, windowPositionOf]
  · refine ⟨_, hargs, ?_, ?_⟩
    · rw [hwp, hp]
      cases resolvedPlacement env lst <;> simp [windowPositionOf]
    · rw [hhn, hh]
  · intro h
    rw [hh]
    simp [resolvedPlacement, h, effectiveHeadless, windowPositionOf]
  · intro h1 h2
    rw [hh]
    simp [resolvedPlacement, h1, h2, effectiveHeadless, windowPositionOf]

/-- C5 witness: with a cached failed resolution, a launch on a platform with
a Chrome executable is headless and carries no window-position argument. -/
theorem c5_witness :
    (launchChromeM linuxEnv lstCachedNone optsSample failingAttempts 7).headlessUsed =
      (optsSample.headless ||
        (launchChromeM linuxEnv lstCachedNone optsSample failingAttempts
          7).placementUsed.isNone)
    ∧ (∃ args,
        (launchChromeM linuxEnv lstCachedNone optsSample failingAttempts 7).spawnedArgs =
          some args
        ∧ ((∃ x y, ChromeArg.windowPosition x y ∈ args) ↔
            (launchChromeM linuxEnv lstCachedNone optsSample failingAttempts
              7).placementUsed.isSome)
        ∧ (ChromeArg.headlessNew ∈ args ↔
            (launchChromeM linuxEnv lstCachedNone optsSample failingAttempts
              7).headlessUsed = true))
    ∧ (lstCachedNone.cachedVirtualDisplay = some none →
        (launchChromeM linuxEnv lstCachedNone optsSample failingAttempts 7).headlessUsed =
          true)
    ∧ (lstCachedNone.cachedVirtualDisplay = none →
        (ensureVirtualDisplay linuxEnv).1 = none →
        (launchChromeM linuxEnv lstCachedNone optsSample failingAttempts 7).headlessUsed =
          true) :=
  c5_headless_and_window_position linuxEnv lstCachedNone optsSample failingAttempts 7
    "/usr/bin/google-chrome" (by decide)

/-- C6 (confirmed): when the introspection endpoint never returns success,
the CDP poll performs exactly 30 attempts at the fixed 500 ms interval
(15000 ms slept in total) and fails with the last observed error message
attached; a `switchWorkspace` that launches under those conditions
propagates that error and leaves the manager state — tracked instances and
the current-workspace pointer — unchanged. -/
theorem c6_retry_exhaustion (env : LaunchEnv) (attempts : Nat → Except String String)
    (msgs : Nat → String) (pid : Nat) (lst : LaunchState) (wm : WMState) (name : String)
    (cfg : WorkspaceConfig) (path : String)
    (hall : ∀ i, attempts i = Except.error (msgs i))
    (hcfg : mapLookup wm.config name = some cfg)
    (huntracked : mapLookup wm.workspaces name = none)
    (hfound : findChromeExecutable env = some path) :
    waitForCDP attempts 30 500 =
      (Except.error ("Chrome CDP not available after 30 retries: " ++ msgs 29), 30, 15000)
    ∧ (switchWorkspace env attempts pid lst wm name).result =
        Except.error ("Chrome CDP not available after 30 retries: " ++ msgs 29)
    ∧ (switchWorkspace env attempts pid lst wm name).wm = wm := by
  have hw : waitForCDP attempts 30 500 =
      (Except.error (cdpFailureMessage 30 (some (msgs 29))), 30, 15000) := by
    have h29 := waitForCDPGo_all_fail attempts msgs hall 30 500 29 0 none 0 0
    simpa [waitForCDP] using h29
  have hmsg : cdpFailureMessage 30 (some (msgs 29)) =
      "Chrome CDP not available after 30 retries: " ++ msgs 29 := rfl
  have hl : ∀ (opts : ChromeLaunchOptions),
      (launchChromeM env lst opts attempts pid).result =
        Except.error ("Chrome CDP not available after 30 retries: " ++ msgs 29) := by
    intro opts
    cases hc : lst.cachedVirtualDisplay <;>
      simp [launchChromeM, hfound, hc, hw, hmsg]
  refine ⟨?_, ?_, ?_⟩
  · rw [hw, hmsg]
  · simp only [switchWorkspace, hcfg, huntracked]
    simp [hl]
  · simp only [switchWorkspace, hcfg, huntracked]
    simp [hl]

/-- C6 witness: retry exhaustion with every poll failing with "no", against
a configured but not-yet-running workspace. -/
theorem c6_witness :
    waitForCDP failingAttempts 30 500 =
      (Except.error ("Chrome CDP not available after 30 retries: " ++ "no"), 30, 15000)
    ∧ (switchWorkspace linuxEnv failingAttempts 7 lstCachedNone wmWork "work").result =
        Except.error ("Chrome CDP not available after 30 retries: " ++ "no")
    ∧ (switchWorkspace linuxEnv failingAttempts 7 lstCachedNone wmWork "work").wm =
        wmWork :=
  c6_retry_exhaustion linuxEnv failingAttempts (fun _ => "no") 7 lstCachedNone wmWork
    "work" { profileDirectory := "James-Work", port := 9231 } "/usr/bin/google-chrome"
    (fun _ => rfl) (by decide) (by decide) (by decide)

/-- C8 (confirmed): a launch resolves the placement through the
process-wide cache — after any launch the cache is populated with the
resolution (success or failure alike), a launch with a populated cache
performs zero display queries and reuses the cached value, a launch with an
empty cache performs exactly one; the resolver detects, and, only when
detection finds nothing, creates a virtual display, waits the fixed 1000 ms
settle delay and retries detection exactly once; and an OS-utility failure
during query or creation yields null, never an error. -/
theorem c8_placement_resolution_cached (env : LaunchEnv) (lst : LaunchState)
    (opts : ChromeLaunchOptions) (attempts : Nat → Except String String) (pid : Nat)
    (path : String) (hfound : findChromeExecutable env = some path) :
    (launchChromeM env lst opts attempts pid).placementUsed = resolvedPlacement env lst
    ∧ (launchChromeM env lst opts attempts pid).lst.cachedVirtualDisplay =
        some (resolvedPlacement env lst)
    ∧ (lst.cachedVirtualDisplay ≠ none →
        (launchChromeM env lst opts attempts pid).displayQueries = 0)
    ∧ (lst.cachedVirtualDisplay = none →
        (launchChromeM env lst opts attempts pid).displayQueries = 1)
    ∧ (env.platform = "darwin" → getVirtualDisplayPosition env 0 ≠ none →
        ensureVirtualDisplay env =
          (getVirtualDisplayPosition env 0, [DisplayAction.detect]))
    ∧ (env.platform = "darwin" → getVirtualDisplayPosition env 0 = none →
        env.createResult = Except.ok () →
        ensureVirtualDisplay env =
          (getVirtualDisplayPosition env 1,
           [DisplayAction.detect, DisplayAction.create, DisplayAction.wait 1000,
            DisplayAction.detect]))
    ∧ (env.platform = "darwin" → getVirtualDisplayPosition env 0 = none →
        env.createResult = Except.error () →
        ensureVirtualDisplay env = (none, [DisplayAction.detect, DisplayAction.create]))
    ∧ (env.detectResults.get? 0 = some (Except.error ()) →
        getVirtualDisplayPosition env 0 = none) := by
  obtain ⟨hp, _hh, _hargs, hcache, hq0, hq1⟩ :=
    launchChromeM_fields env lst opts attempts pid path hfound
  refine ⟨hp, hcache, hq0, hq1, ?_, ?_, ?_, ?_⟩
  · intro hd hne
    cases h0 : getVirtualDisplayPosition env 0 with
    | none => exact absurd h0 hne
    | some d => simp [ensureVirtualDisplay, hd, h0]
  · intro hd h0 hcr
    simp [ensureVirtualDisplay, hd, h0, hcr]
  · intro hd h0 hcr
    simp [ensureVirtualDisplay, hd, h0, hcr]
  · intro h0
    rw [List.get?_eq_getElem?] at h0
    by_cases hd : env.platform = "darwin" <;> simp [getVirtualDisplayPosition, hd, h0]

/-- C8 witness: a macOS environment whose display query and creation both
fail — the launch caches the failed (null) resolution after one query, and
the resolver's trace shows the failure swallowed as null. -/
theorem c8_witness :
    (launchChromeM darwinEnvFail lstUnqueried optsSample failingAttempts 7).placementUsed =
      resolvedPlacement darwinEnvFail lstUnqueried
    ∧ (launchChromeM darwinEnvFail lstUnqueried optsSample failingAttempts
        7).lst.cachedVirtualDisplay = some (resolvedPlacement darwinEnvFail lstUnqueried)
    ∧ (lstUnqueried.cachedVirtualDisplay ≠ none →
        (launchChromeM darwinEnvFail lstUnqueried optsSample failingAttempts
          7).displayQueries = 0)
    ∧ (lstUnqueried.cachedVirtualDisplay = none →
        (launchChromeM darwinEnvFail lstUnqueried optsSample failingAttempts
          7).displayQueries = 1)
    ∧ (darwinEnvFail.platform = "darwin" →
        getVirtualDisplayPosition darwinEnvFail 0 ≠ none →
        ensureVirtualDisplay darwinEnvFail =
          (getVirtualDisplayPosition darwinEnvFail 0, [DisplayAction.detect]))
    ∧ (darwinEnvFail.platform = "darwin" →
        getVirtualDisplayPosition darwinEnvFail 0 = none →
        darwinEnvFail.createResult = Except.ok () →
        ensureVirtualDisplay darwinEnvFail =
          (getVirtualDisplayPosition darwinEnvFail 1,
           [DisplayAction.detect, DisplayAction.create, DisplayAction.wait 1000,
            DisplayAction.detect]))
    ∧ (darwinEnvFail.platform = "darwin" →
        getVirtualDisplayPosition darwinEnvFail 0 = none →
        darwinEnvFail.createResult = Except.error () →
        ensureVirtualDisplay darwinEnvFail =
          (none, [DisplayAction.detect, DisplayAction.create]))
    ∧ (darwinEnvFail.detectResults.get? 0 = some (Except.error ()) →
        getVirtualDisplayPosition darwinEnvFail 0 = none) :=
  c8_placement_resolution_cached darwinEnvFail lstUnqueried optsSample failingAttempts 7
    "/Applications/Google Chrome.app/Contents/MacOS/Google Chrome" (by decide)

end DevBrowser
